import Mathlib

/-!
Verification of the `anom_labels.py` anomaly-detection example (klokare/blockhead).

The repository's only source file is the driver script
`src/examples/python/anomaly_detection/anom_labels.py`; the two blocks it
exercises (`LabelTransformer`, `SequenceLearner` from the `brainblocks`
library) and the `sklearn` `LabelEncoder` preprocessing utility are external
to `src/`.  Those parts are therefore modelled here from the specification
(`spec.md`), with choices that the spec explicitly leaves open (bursting
tie-break, receptor sampling order) fixed deterministically as the spec's
design notes instruct.  The driver loop itself is embedded directly from the
Python source.
-/

namespace Blockhead

/-- Modelled from the spec (§7, error taxonomy): the three structural error
kinds raised by the core blocks. -/
inductive BBError where
  | outOfRange
  | notConnected
  | dimensionMismatch
deriving DecidableEq, Repr

/-! ## Label Transformer (modelled from the spec, §4.1) -/

/-- Modelled from the spec: the Label Transformer block (`brainblocks`
`LabelTransformer`, not under `src/`).  `num_l` distinct labels, `num_s`
output statelets, a pending label set by `set_value`, and the current output
pattern (the sorted list of active statelet indices), recomputed entirely on
each `feedforward`. -/
structure LabelTransformer where
  num_l : Nat
  num_s : Nat
  pending : Nat
  output : List Nat
deriving DecidableEq, Repr

/-- Modelled from the spec (§4.1, encoding policy): partition the `num_s`
statelets into `num_l` contiguous blocks and turn label `l`'s dedicated block
fully active. -/
def ltEncode (num_l num_s l : Nat) : List Nat :=
  List.range' (l * (num_s / num_l)) (num_s / num_l)

/-- Modelled from the spec (§6): `construct(num_labels, num_statelets)`. -/
def LabelTransformer.construct (num_l num_s : Nat) : LabelTransformer :=
  { num_l := num_l, num_s := num_s, pending := 0, output := [] }

/-- Modelled from the spec (§4.1): `set_value(label)` accepts an integer in
`[0, num_l)` and fails with `OutOfRangeError` otherwise; it only mutates the
pending-label state. -/
def LabelTransformer.set_value (lt : LabelTransformer) (label : Int) :
    Except BBError LabelTransformer :=
  if 0 ≤ label ∧ label < (lt.num_l : Int) then
    .ok { lt with pending := label.toNat }
  else
    .error .outOfRange

/-- Modelled from the spec (§4.1): `feedforward()` replaces the output pattern
with the precomputed sparse sub-pattern of the pending label. -/
def LabelTransformer.feedforward (lt : LabelTransformer) : LabelTransformer :=
  { lt with output := ltEncode lt.num_l lt.num_s lt.pending }

/-! ## Label encoding (external collaborator, modelled from the spec §6:
a symbol→integer encoder supplying values in `[0, num_labels)`; the driver
uses sklearn's `LabelEncoder`, whose classes are the sorted distinct symbols
and whose `transform` maps each symbol to its class index). -/

/-- Insert a character into a sorted duplicate-free list, keeping it sorted
and duplicate-free. -/
def insertUnique (x : Char) : List Char → List Char
  | [] => [x]
  | y :: ys =>
    if x = y then y :: ys
    else if x < y then x :: y :: ys
    else y :: insertUnique x ys

/-- Modelled from the spec: the encoder's classes — the sorted distinct
symbols of the fitted values (sklearn `LabelEncoder.fit`). -/
def leClasses (vs : List Char) : List Char :=
  vs.foldl (fun acc v => insertUnique v acc) []

/-- Index of a character in a list (first occurrence), 0-based. -/
def indexOfChar (x : Char) : List Char → Nat
  | [] => 0
  | y :: ys => if x = y then 0 else indexOfChar x ys + 1

/-- Modelled from the spec: `LabelEncoder.transform` of one symbol — its
index among the sorted distinct classes. -/
def leTransform (vs : List Char) (v : Char) : Nat :=
  indexOfChar v (leClasses vs)

/-! ## Driver data (from `anom_labels.py`) -/

/-- The driver's input symbols: `[a,a,a,a,a,b,c,d,e,f]` three times with the
single substitution `d→g` on the third repeat (`anom_labels.py`, `values`). -/
def values : List Char :=
  ['a', 'a', 'a', 'a', 'a', 'b', 'c', 'd', 'e', 'f',
   'a', 'a', 'a', 'a', 'a', 'b', 'c', 'd', 'e', 'f',
   'a', 'a', 'a', 'a', 'a', 'b', 'c', 'g', 'e', 'f']

/-- The integer labels fed to the transformer
(`labels = le.transform(values)` in `anom_labels.py`). -/
def labels : List Nat := values.map (leTransform values)

/-! ## Sequence Learner (modelled from the spec, §4.2)

The spec leaves two policies open and asks implementers to fix them
deterministically (§9): the bursting tie-break (we grow on the lowest-index
statelet of the column that still has a free dendrite slot) and the receptor
sampling order (we order the context statelets by within-column offset, then
by index, and truncate).  New receptors start at permanence `perm_thr`
("at/just-below `perm_thr`", §4.2 step 4).  Receptors reference statelets of
the learner itself: dendrite matches are evaluated against the winner-pattern
snapshot (§4.2 step 5), so growth samples its receptors from the previous
step's winner statelets — the temporal context the dendrite will recognise. -/

/-- Modelled from the spec (§3): a receptor is a (source statelet, permanence)
pair; permanence is a bounded natural number. -/
structure Receptor where
  src : Nat
  perm : Nat
deriving DecidableEq, Repr

/-- Modelled from the spec (§3): a dendrite belongs to exactly one statelet
and holds up to `num_rpd` receptors. -/
structure Dendrite where
  owner : Nat
  receptors : List Receptor
deriving DecidableEq, Repr

/-- Modelled from the spec (§4.2): the Sequence Learner's construction
parameters, plus its configured input width `num_c` (number of columns) and
the permanence ceiling `perm_max` (§3, "bounded integer in `[0, perm_max]`"). -/
structure SLParams where
  num_c : Nat
  num_spc : Nat
  num_dps : Nat
  num_rpd : Nat
  d_thresh : Nat
  perm_thr : Nat
  perm_inc : Nat
  perm_dec : Nat
  perm_max : Nat
deriving DecidableEq, Repr

/-- Modelled from the spec (§3/§4.2): the Sequence Learner's state — grown
dendrites (the fixed arena's used slots), the previous step's winner pattern,
and the two counts behind the last anomaly score. -/
structure SequenceLearner where
  params : SLParams
  connectedWidth : Option Nat
  dendrites : List Dendrite
  prevWinners : List Nat
  unpredCount : Nat
  activeCount : Nat
deriving DecidableEq, Repr

/-- Modelled from the spec (§3): a receptor is connected iff its permanence
is at or above `perm_thr`. -/
def Receptor.isConnected (p : SLParams) (r : Receptor) : Bool :=
  p.perm_thr ≤ r.perm

/-- Modelled from the spec (§4.2 step 5): a dendrite is active (predictive)
iff its count of connected receptors matching the winner snapshot reaches
`d_thresh`. -/
def Dendrite.isActive (p : SLParams) (winners : List Nat) (d : Dendrite) : Bool :=
  p.d_thresh ≤ (d.receptors.filter
    (fun r => r.isConnected p && winners.contains r.src)).length

/-- The statelet indices of column `c`: `[c*num_spc, (c+1)*num_spc)`. -/
def colStatelets (p : SLParams) (c : Nat) : List Nat :=
  List.range' (c * p.num_spc) p.num_spc

/-- A statelet is predicted iff some dendrite it owns was active against the
previous step's winner pattern. -/
def SequenceLearner.statPredicted (sl : SequenceLearner) (s : Nat) : Bool :=
  sl.dendrites.any (fun d => d.owner == s && d.isActive sl.params sl.prevWinners)

/-- A column is predicted iff one of its statelets is predicted. -/
def SequenceLearner.colPredicted (sl : SequenceLearner) (c : Nat) : Bool :=
  (colStatelets sl.params c).any sl.statPredicted

/-- Deterministic receptor sampling (policy fixed per spec §9): order the
context statelets by within-column offset, then by index, truncate to `n`. -/
def sampleContext (spc n : Nat) (ctx : List Nat) : List Nat :=
  ((List.range spc).flatMap (fun k => ctx.filter (fun s => s % spc == k))).take n

/-- Number of dendrites currently owned by statelet `s`. -/
def dendriteCountOf (dens : List Dendrite) (s : Nat) : Nat :=
  (dens.filter (fun d => d.owner == s)).length

/-- Bursting tie-break (policy fixed per spec §9): the lowest-index statelet
of the column that still has a free dendrite slot (`num_dps` cap). -/
def growthStatelet (p : SLParams) (dens : List Dendrite) (c : Nat) : Option Nat :=
  (colStatelets p c).find? (fun s => dendriteCountOf dens s < p.num_dps)

/-- Modelled from the spec (§4.2 step 4): reinforce a receptor whose source
is active in the matched context (`+perm_inc`, capped at the ceiling), decay
one whose source is inactive (`-perm_dec`, floored at 0 by `Nat` subtraction). -/
def reinforceReceptor (p : SLParams) (ctx : List Nat) (r : Receptor) : Receptor :=
  if ctx.contains r.src then
    { r with perm := min (r.perm + p.perm_inc) p.perm_max }
  else
    { r with perm := r.perm - p.perm_dec }

/-- Modelled from the spec (§6): `construct` with all counts fixed; no
dendrites are grown yet and no input is connected. -/
def SequenceLearner.construct (p : SLParams) : SequenceLearner :=
  { params := p, connectedWidth := none, dendrites := [], prevWinners := [],
    unpredCount := 0, activeCount := 0 }

/-- Modelled from the spec (§4.2 connection protocol / §6): `add_child`
validates pattern-width compatibility at connection time; a mismatch fails
with `DimensionMismatchError` and produces no new state.  The ordinal slot
supports future multi-input composition and is not otherwise used. -/
def SequenceLearner.add_child (sl : SequenceLearner) (childWidth : Nat)
    (_slot : Nat) : Except BBError SequenceLearner :=
  if childWidth = sl.params.num_c then
    .ok { sl with connectedWidth := some childWidth }
  else
    .error .dimensionMismatch

/-- Modelled from the spec (§4.2 state machine): one `feedforward(learn)`
step on the current input pattern (the connected child's output, a list of
active input bits = active columns).  Fails with `NotConnectedError` when no
input source is connected.  Steps, in order: active columns; winner statelets
(predicted statelets of predicted columns, every statelet of bursting
columns); anomaly counts, computed against the previous step's state;
learning (reinforce matched predicting dendrites, grow a dendrite on each
bursting column from the previous winner context); the new winner pattern
becomes both the output and the snapshot against which dendrites will be
matched. -/
def SequenceLearner.feedforward (sl : SequenceLearner) (learn : Bool)
    (input : List Nat) : Except BBError SequenceLearner :=
  match sl.connectedWidth with
  | none => .error .notConnected
  | some _ =>
    let p := sl.params
    let activeCols := input
    let predCols := activeCols.filter sl.colPredicted
    let burstCols := activeCols.filter (fun c => !sl.colPredicted c)
    let winners := activeCols.flatMap (fun c =>
      if sl.colPredicted c then (colStatelets p c).filter sl.statPredicted
      else colStatelets p c)
    let reinforced :=
      if learn then
        sl.dendrites.map (fun d =>
          if d.isActive p sl.prevWinners
              && predCols.any (fun c => (colStatelets p c).contains d.owner) then
            { d with receptors := d.receptors.map (reinforceReceptor p sl.prevWinners) }
          else d)
      else sl.dendrites
    let grown :=
      if learn && !sl.prevWinners.isEmpty then
        burstCols.filterMap (fun c =>
          (growthStatelet p sl.dendrites c).map (fun s =>
            { owner := s
              receptors := (sampleContext p.num_spc p.num_rpd sl.prevWinners).map
                (fun src => { src := src, perm := p.perm_thr }) }))
      else []
    .ok { sl with
      dendrites := reinforced ++ grown
      prevWinners := winners
      unpredCount := burstCols.length
      activeCount := activeCols.length }

/-- Modelled from the spec (§4.2 step 3 / §6): the anomaly score is the
fraction of active columns that were not predicted (0 when no column was
active, matching the score's initial value). -/
def SequenceLearner.get_anomaly_score (sl : SequenceLearner) : Rat :=
  mkRat sl.unpredCount sl.activeCount

/-- The learner's output pattern: the winner statelets of the last step. -/
def SequenceLearner.get_output_pattern (sl : SequenceLearner) : List Nat :=
  sl.prevWinners

/-! ## Driver embedding (from `anom_labels.py`) -/

/-- The driver's transformer: `lt = LabelTransformer(num_l=26, num_s=208)`. -/
def lt0 : LabelTransformer := LabelTransformer.construct 26 208

/-- The driver's learner parameters: `sl = SequenceLearner(num_spc=10,
num_dps=10, num_rpd=12, d_thresh=6, perm_thr=20, perm_inc=2, perm_dec=1)`;
the input width (number of columns) matches the transformer's 208 statelets,
and the permanence ceiling is the default 0..99 scale (spec §3). -/
def slParams : SLParams :=
  { num_c := 208, num_spc := 10, num_dps := 10, num_rpd := 12,
    d_thresh := 6, perm_thr := 20, perm_inc := 2, perm_dec := 1,
    perm_max := 99 }

/-- The learner as constructed by the driver, before connection. -/
def sl_init : SequenceLearner := SequenceLearner.construct slParams

/-- One iteration of the driver loop, in the source's order:
`lt.set_value(labels[i])`, `lt.feedforward()`, `sl.feedforward(learn=True)` —
the learner reading the transformer's just-computed output — then the score
is read with `sl.get_anomaly_score()`. -/
def driverStep (st : LabelTransformer × SequenceLearner) (l : Nat) :
    Except BBError (LabelTransformer × SequenceLearner) := do
  let lt ← st.1.set_value (l : Int)
  let lt := lt.feedforward
  let sl ← st.2.feedforward true lt.output
  pure (lt, sl)

/-- The driver's `for i in range(len(labels))` loop: each iteration runs one
step and assigns `scores[i] = sl.get_anomaly_score()`. -/
def driverLoop : List Nat → Nat → (LabelTransformer × SequenceLearner) →
    List Rat → Except BBError (List Rat × (LabelTransformer × SequenceLearner))
  | [], _, st, scores => .ok (scores, st)
  | l :: rest, i, st, scores => do
    let st' ← driverStep st l
    driverLoop rest (i + 1) st' (scores.set i st'.2.get_anomaly_score)

/-- The driver's score list, `scores = [0.0 for _ in range(len(values))]`. -/
def scores0 : List Rat := List.replicate values.length 0

/-- The whole driver run: connect the blocks
(`sl.input.add_child(lt.output, 0)`), then loop over the labels. -/
def driverRun :
    Except BBError (List Rat × (LabelTransformer × SequenceLearner)) := do
  let sl ← sl_init.add_child lt0.num_s 0
  driverLoop labels 0 (lt0, sl) scores0

/-- The recorded scores of the run (empty if the run failed). -/
def runScores : List Rat :=
  match driverRun with
  | .ok (s, _) => s
  | .error _ => []

/-- The learner right after the driver's successful `add_child` call. -/
def slC : SequenceLearner := { sl_init with connectedWidth := some 208 }

/-- The spec's permanence invariant (§3): every receptor of every dendrite
has a permanence in `[0, perm_max]`. -/
def permsBounded (sl : SequenceLearner) : Prop :=
  ∀ d ∈ sl.dendrites, ∀ r ∈ d.receptors,
    0 ≤ r.perm ∧ r.perm ≤ sl.params.perm_max

instance (sl : SequenceLearner) : Decidable (permsBounded sl) :=
  inferInstanceAs (Decidable (∀ d ∈ sl.dendrites, ∀ r ∈ d.receptors,
    0 ≤ r.perm ∧ r.perm ≤ sl.params.perm_max))

/-! ## Computed facts about the driver run -/

set_option maxHeartbeats 8000000 in
set_option maxRecDepth 10000 in
/-- The scores recorded by the driver run, step by step: full surprise on the
novel transitions of the first repeat and on the wrap-around transition f→a
at timestep 10, zero on every learned transition, and full surprise again at
the substituted symbol (timestep 27) and at its successor (timestep 28). -/
lemma runScores_eq :
    runScores =
      [1, 1, 0, 0, 0, 1, 1, 1, 1, 1,
       1, 0, 0, 0, 0, 0, 0, 0, 0, 0,
       0, 0, 0, 0, 0, 0, 0, 1, 1, 0] := by decide

/-- The driver run completes without raising any error. -/
lemma driverRun_ok : driverRun.isOk = true := by
  cases h : driverRun with
  | ok p => rfl
  | error e =>
    have h2 := runScores_eq
    unfold runScores at h2
    rw [h] at h2
    exact List.noConfusion h2

/-! ## Helper lemmas on the Label Transformer -/

/-- The output pattern produced by `set_value(label); feedforward()` is the
precomputed encoding of the label when the label is in range. -/
lemma set_value_feedforward_output (lt : LabelTransformer) (label : Int) :
    Except.map (fun x => (LabelTransformer.feedforward x).output)
      (lt.set_value label) =
      if 0 ≤ label ∧ label < (lt.num_l : Int) then
        .ok (ltEncode lt.num_l lt.num_s label.toNat)
      else
        .error .outOfRange := by
  unfold LabelTransformer.set_value
  by_cases hc : 0 ≤ label ∧ label < (lt.num_l : Int)
  · rw [if_pos hc, if_pos hc]
    rfl
  · rw [if_neg hc, if_neg hc]
    rfl

/-- Distinct in-range labels get distinct encodings: their dedicated blocks
start at distinct positions. -/
lemma ltEncode_inj (num_l num_s l1 l2 : Nat) (hls : num_l ≤ num_s)
    (h1 : l1 < num_l) (_h2 : l2 < num_l) (hne : l1 ≠ l2) :
    ltEncode num_l num_s l1 ≠ ltEncode num_l num_s l2 := by
  intro heq
  have hl : 0 < num_l := lt_of_le_of_lt (Nat.zero_le l1) h1
  have hw : 0 < num_s / num_l := Nat.div_pos hls hl
  obtain ⟨k, hk⟩ := Nat.exists_eq_succ_of_ne_zero (Nat.pos_iff_ne_zero.mp hw)
  unfold ltEncode at heq
  rw [hk, List.range'_succ, List.range'_succ] at heq
  injection heq with hhead _
  exact hne (Nat.eq_of_mul_eq_mul_right (Nat.succ_pos k) hhead)

/-! ## Claims C4–C8 -/

/-- Claim C4: `set_value(label)` succeeds exactly for integer labels in
`[0, num_l)` and fails with an `OutOfRangeError` otherwise; the driver
configures `num_l = 26`, the encoder produces labels in `[0, 7)`, and the
run raises no error at all. -/
theorem set_value_range :
    (∀ (lt : LabelTransformer) (label : Int),
      (∃ lt', lt.set_value label = .ok lt') ↔
        0 ≤ label ∧ label < (lt.num_l : Int)) ∧
    (∀ (lt : LabelTransformer) (label : Int),
      ¬(0 ≤ label ∧ label < (lt.num_l : Int)) →
        lt.set_value label = .error .outOfRange) ∧
    lt0.num_l = 26 ∧
    (∀ l ∈ labels, l < 7) ∧
    driverRun.isOk = true := by
  have herr : ∀ (lt : LabelTransformer) (label : Int),
      ¬(0 ≤ label ∧ label < (lt.num_l : Int)) →
        lt.set_value label = .error .outOfRange := by
    intro lt label hc
    unfold LabelTransformer.set_value
    rw [if_neg hc]
  refine ⟨?_, herr, rfl, by decide, driverRun_ok⟩
  intro lt label
  constructor
  · rintro ⟨lt', hok⟩
    by_contra hc
    rw [herr lt label hc] at hok
    cases hok
  · intro hc
    refine ⟨{ lt with pending := label.toNat }, ?_⟩
    unfold LabelTransformer.set_value
    rw [if_pos hc]

/-- Witness for C4: in the driver's configuration, label 3 is accepted, label
99 is rejected with `OutOfRangeError`, and 3 is one of the run's labels. -/
theorem set_value_range_witness :
    (∃ lt', lt0.set_value 3 = .ok lt') ∧
    lt0.set_value 99 = .error .outOfRange ∧
    (3 : Nat) < 7 :=
  ⟨(set_value_range.1 lt0 3).mpr (by decide),
   set_value_range.2.1 lt0 99 (by decide),
   set_value_range.2.2.2.1 3 (by decide)⟩

/-- Claim C5: `feedforward` on a learner with no connected input source fails
with `NotConnectedError`; the driver establishes the connection before the
first `feedforward` call, and the run never produces any error. -/
theorem feedforward_not_connected :
    (∀ (sl : SequenceLearner) (learn : Bool) (input : List Nat),
      sl.connectedWidth = none →
        sl.feedforward learn input = .error .notConnected) ∧
    sl_init.connectedWidth = none ∧
    sl_init.add_child lt0.num_s 0 = .ok slC ∧
    (∀ e, driverRun ≠ .error e) := by
  refine ⟨?_, rfl, rfl, ?_⟩
  · intro sl learn input h
    unfold SequenceLearner.feedforward
    rw [h]
  · intro e h
    have h2 := driverRun_ok
    rw [h] at h2
    exact Bool.noConfusion h2

/-- Witness for C5: the just-constructed, unconnected learner fails with
`NotConnectedError`. -/
theorem feedforward_not_connected_witness :
    sl_init.feedforward true [] = .error .notConnected :=
  feedforward_not_connected.1 sl_init true [] rfl

/-- Claim C6: connecting two blocks validates pattern-width compatibility at
connection time: a mismatch fails with `DimensionMismatchError` (producing
no new state), and a success requires equal widths and records only the
binding — parameters, dendrites, winner pattern and score counts of the
learner are untouched, and the upstream block is not involved at all. -/
theorem add_child_validation :
    (∀ (sl : SequenceLearner) (w slot : Nat), w ≠ sl.params.num_c →
      sl.add_child w slot = .error .dimensionMismatch) ∧
    (∀ (sl : SequenceLearner) (w slot : Nat) (sl' : SequenceLearner),
      sl.add_child w slot = .ok sl' →
        w = sl.params.num_c ∧
        sl' = { sl with connectedWidth := some w }) := by
  constructor
  · intro sl w slot h
    unfold SequenceLearner.add_child
    rw [if_neg h]
  · intro sl w slot sl' h
    unfold SequenceLearner.add_child at h
    by_cases hw : w = sl.params.num_c
    · rw [if_pos hw] at h
      injection h with h'
      exact ⟨hw, h'.symm⟩
    · rw [if_neg hw] at h
      cases h

/-- Witness for C6: connecting a width-5 pattern to the driver's learner
(input width 208) fails with `DimensionMismatchError`. -/
theorem add_child_validation_witness :
    sl_init.add_child 5 0 = .error .dimensionMismatch :=
  add_child_validation.1 sl_init 5 0 (by decide)

/-- Claim C7: the Label Transformer is deterministic — on any two instances
with the same construction parameters, whatever their current state (fresh
or already used), `set_value(l); feedforward()` yields identical output
patterns. -/
theorem transformer_deterministic :
    ∀ (lt1 lt2 : LabelTransformer) (label : Int),
      lt1.num_l = lt2.num_l → lt1.num_s = lt2.num_s →
      Except.map (fun x => (LabelTransformer.feedforward x).output)
          (lt1.set_value label) =
        Except.map (fun x => (LabelTransformer.feedforward x).output)
          (lt2.set_value label) := by
  intro lt1 lt2 label h1 h2
  rw [set_value_feedforward_output, set_value_feedforward_output, h1, h2]

/-- Witness for C7: a fresh instance and an already-stepped instance produce
the same output pattern for label 3. -/
theorem transformer_deterministic_witness :
    Except.map (fun x => (LabelTransformer.feedforward x).output)
        (lt0.set_value 3) =
      Except.map (fun x => (LabelTransformer.feedforward x).output)
        ((LabelTransformer.feedforward lt0).set_value 3) :=
  transformer_deterministic lt0 lt0.feedforward 3 rfl rfl

/-- Claim C8: the label-to-pattern mapping is injective — distinct labels
within `[0, num_labels)` produce different output patterns (under the spec's
minimal width requirement `num_l ≤ num_s`). -/
theorem transformer_injective :
    ∀ (lt : LabelTransformer) (l1 l2 : Nat),
      lt.num_l ≤ lt.num_s → l1 < lt.num_l → l2 < lt.num_l → l1 ≠ l2 →
      Except.map (fun x => (LabelTransformer.feedforward x).output)
          (lt.set_value ((l1 : Nat) : Int)) ≠
        Except.map (fun x => (LabelTransformer.feedforward x).output)
          (lt.set_value ((l2 : Nat) : Int)) := by
  intro lt l1 l2 hls h1 h2 hne heq
  rw [set_value_feedforward_output, set_value_feedforward_output,
    if_pos ⟨Int.natCast_nonneg l1, by exact_mod_cast h1⟩,
    if_pos ⟨Int.natCast_nonneg l2, by exact_mod_cast h2⟩] at heq
  injection heq with heq'
  rw [Int.toNat_natCast, Int.toNat_natCast] at heq'
  exact ltEncode_inj lt.num_l lt.num_s l1 l2 hls h1 h2 hne heq'

/-- Witness for C8: labels 0 and 1 of the driver's transformer produce
different output patterns. -/
theorem transformer_injective_witness :
    Except.map (fun x => (LabelTransformer.feedforward x).output)
        (lt0.set_value ((0 : Nat) : Int)) ≠
      Except.map (fun x => (LabelTransformer.feedforward x).output)
        (lt0.set_value ((1 : Nat) : Int)) :=
  transformer_injective lt0 0 1 (by decide) (by decide) (by decide)
    (by decide)


/-- A reinforced receptor keeps its permanence within the ceiling. -/
lemma reinforceReceptor_perm_le (p : SLParams) (ctx : List Nat) (r : Receptor)
    (h : r.perm ≤ p.perm_max) :
    (reinforceReceptor p ctx r).perm ≤ p.perm_max := by
  unfold reinforceReceptor
  by_cases hc : ctx.contains r.src = true
  · rw [if_pos hc]
    exact min_le_right _ _
  · rw [if_neg hc]
    exact le_trans (Nat.sub_le _ _) h

/-- Claim C2: after any successful `feedforward`, the anomaly score lies in
`[0, 1]` and equals the fraction of currently active input columns that were
not predicted by any dendrite from the previous step's state. -/
theorem anomaly_score_fraction :
    ∀ (sl : SequenceLearner) (learn : Bool) (input : List Nat)
      (sl' : SequenceLearner),
      sl.feedforward learn input = .ok sl' →
      0 ≤ sl'.get_anomaly_score ∧ sl'.get_anomaly_score ≤ 1 ∧
      sl'.get_anomaly_score =
        ((input.filter (fun c => !sl.colPredicted c)).length : Rat) /
          (input.length : Rat) := by
  intro sl learn input sl' h
  cases hcw : sl.connectedWidth with
  | none =>
    unfold SequenceLearner.feedforward at h
    rw [hcw] at h
    cases h
  | some w =>
    unfold SequenceLearner.feedforward at h
    rw [hcw] at h
    injection h with h'
    subst h'
    unfold SequenceLearner.get_anomaly_score
    dsimp only
    rw [Rat.mkRat_eq_div]
    have hle : ((input.filter (fun c => !sl.colPredicted c)).length : Nat)
        ≤ input.length := List.length_filter_le _ _
    refine ⟨by positivity, ?_, by push_cast; ring⟩
    rcases Nat.eq_zero_or_pos input.length with hz | hpos
    · rw [hz]
      norm_num
    · rw [div_le_one (by exact_mod_cast hpos)]
      exact_mod_cast hle

/-- Claim C3: within one driver timestep the operations happen in the source
order: the transformer's `feedforward` recomputes the output from the label
just set, and the learner consumes exactly that freshly computed pattern —
its read happens after the upstream `feedforward` and before its own
completes, in the same timestep. -/
theorem driver_step_order :
    ∀ (lt : LabelTransformer) (sl : SequenceLearner) (l : Nat),
      l < lt.num_l →
      (LabelTransformer.feedforward lt).output
          = ltEncode lt.num_l lt.num_s lt.pending ∧
      driverStep (lt, sl) l =
        Except.map
          (fun sl' =>
            ({ lt with
                pending := l
                output := ltEncode lt.num_l lt.num_s l }, sl'))
          (sl.feedforward true (ltEncode lt.num_l lt.num_s l)) := by
  intro lt sl l h
  refine ⟨rfl, ?_⟩
  have hcond : (0 : Int) ≤ (l : Int) ∧ (l : Int) < (lt.num_l : Int) :=
    ⟨Int.natCast_nonneg l, by exact_mod_cast h⟩
  have h1 : driverStep (lt, sl) l =
      Except.bind (sl.feedforward true (ltEncode lt.num_l lt.num_s ((l : Int)).toNat))
        (fun sl' => Except.ok
          ({ lt with
              pending := ((l : Int)).toNat
              output := ltEncode lt.num_l lt.num_s ((l : Int)).toNat }, sl')) := by
    unfold driverStep LabelTransformer.set_value
    rw [if_pos hcond]
    rfl
  rw [h1]
  simp only [Int.toNat_natCast]
  cases sl.feedforward true (ltEncode lt.num_l lt.num_s l) <;> rfl

/-- Claim C9: permanences stay in `[0, perm_max]` across construction,
connection, and every successful `feedforward` (with or without learning):
reinforcement caps at the ceiling, decay floors at 0, and grown receptors
start at `perm_thr`, which the configuration keeps at or below the ceiling. -/
theorem permanence_bounds :
    (∀ p, permsBounded (SequenceLearner.construct p)) ∧
    (∀ (sl : SequenceLearner) (w slot : Nat) (sl' : SequenceLearner),
      sl.add_child w slot = .ok sl' → permsBounded sl → permsBounded sl') ∧
    (∀ (sl : SequenceLearner) (learn : Bool) (input : List Nat)
        (sl' : SequenceLearner),
      sl.params.perm_thr ≤ sl.params.perm_max →
      permsBounded sl → sl.feedforward learn input = .ok sl' →
      permsBounded sl') := by
  refine ⟨?_, ?_, ?_⟩
  · intro p d hd
    exact absurd hd (List.not_mem_nil d)
  · intro sl w slot sl' hok hb
    unfold SequenceLearner.add_child at hok
    by_cases hw : w = sl.params.num_c
    · rw [if_pos hw] at hok
      injection hok with hok'
      subst hok'
      exact hb
    · rw [if_neg hw] at hok
      cases hok
  · intro sl learn input sl' hthr hb h
    cases hcw : sl.connectedWidth with
    | none =>
      unfold SequenceLearner.feedforward at h
      rw [hcw] at h
      cases h
    | some wd =>
      unfold SequenceLearner.feedforward at h
      rw [hcw] at h
      injection h with h'
      subst h'
      intro d hd r hr
      refine ⟨Nat.zero_le _, ?_⟩
      dsimp only at hd ⊢
      rcases List.mem_append.mp hd with hd1 | hd2
      · by_cases hl : learn = true
        · rw [if_pos hl] at hd1
          obtain ⟨d0, hd0, rfl⟩ := List.mem_map.mp hd1
          split at hr
          · obtain ⟨r0, hr0, rfl⟩ := List.mem_map.mp hr
            exact reinforceReceptor_perm_le _ _ _ (hb d0 hd0 r0 hr0).2
          · exact (hb d0 hd0 r hr).2
        · rw [if_neg hl] at hd1
          exact (hb d hd1 r hr).2
      · by_cases hg : (learn && !sl.prevWinners.isEmpty) = true
        · rw [if_pos hg] at hd2
          obtain ⟨c, hc, hfc⟩ := List.mem_filterMap.mp hd2
          obtain ⟨s, hs, rfl⟩ := Option.map_eq_some'.mp hfc
          obtain ⟨src, hsrc, rfl⟩ := List.mem_map.mp hr
          exact hthr
        · rw [if_neg hg] at hd2
          exact absurd hd2 (List.not_mem_nil d)

/-- Witness for C2: the first step of the driver's learner on the encoding of
label 0 produces a score inside `[0, 1]`. -/
theorem anomaly_score_fraction_witness :
    ∃ sl', slC.feedforward true (ltEncode 26 208 0) = .ok sl' ∧
      0 ≤ sl'.get_anomaly_score ∧ sl'.get_anomaly_score ≤ 1 :=
  ⟨_, rfl,
   (anomaly_score_fraction slC true (ltEncode 26 208 0) _ rfl).1,
   (anomaly_score_fraction slC true (ltEncode 26 208 0) _ rfl).2.1⟩

/-- Witness for C3: the first driver step on label 0. -/
theorem driver_step_order_witness :
    (LabelTransformer.feedforward lt0).output
        = ltEncode lt0.num_l lt0.num_s lt0.pending ∧
    driverStep (lt0, sl_init) 0 =
      Except.map
        (fun sl' =>
          ({ lt0 with
              pending := 0
              output := ltEncode lt0.num_l lt0.num_s 0 }, sl'))
        (sl_init.feedforward true (ltEncode lt0.num_l lt0.num_s 0)) :=
  driver_step_order lt0 sl_init 0 (by decide)

/-- Witness for C9: the freshly constructed learner satisfies the permanence
invariant, and it is preserved across the first learning step. -/
theorem permanence_bounds_witness :
    permsBounded (SequenceLearner.construct slParams) ∧
    (∃ sl', slC.feedforward true (ltEncode 26 208 0) = .ok sl' ∧
      permsBounded sl') :=
  ⟨permanence_bounds.1 slParams,
   ⟨_, rfl,
    permanence_bounds.2.2 slC true (ltEncode 26 208 0) _ (by decide)
      (by decide) rfl⟩⟩

/-! ## Claims C1 and C10: the driver run -/

/-- Claim C1 (counterexample): the claim as stated fails — timestep 10 lies
in a repeated sub-sequence (the start of the second repeat of the block), is
not the substituted position, yet its recorded score is a full 1.0 spike:
the wrap-around transition f→a occurs there for the first time, so none of
the active columns were predicted. -/
theorem run_scores_wraparound_spike : runScores[10]! = 1 := by
  rw [runScores_eq]
  rfl

/-- Claim C1 (amended): in the driver's run the recorded scores are zero on
the repeated sub-sequences except at timestep 10 — the first occurrence of
the wrap-around transition f→a, which scores a full 1.0 like any first-seen
transition — with the spike 1.0 exactly at the substituted position 27, the
secondary elevation 1.0 at the following position 28 (its successor was
mispredicted), and 0 again at 29. -/
theorem run_scores_scenario :
    runScores.length = 30 ∧
    (∀ i, 11 ≤ i → i ≤ 26 → runScores[i]! = 0) ∧
    runScores[10]! = 1 ∧
    runScores[27]! = 1 ∧ runScores[28]! = 1 ∧ runScores[29]! = 0 := by
  rw [runScores_eq]
  refine ⟨rfl, ?_, rfl, rfl, rfl, rfl⟩
  intro i h1 h2
  interval_cases i <;> rfl

/-- Witness for C1 at timestep 12, inside the learned repeats. -/
theorem run_scores_scenario_witness : runScores[12]! = 0 :=
  run_scores_scenario.2.1 12 (by norm_num) (by norm_num)

/-- Claim C10: the driver's input is exactly period-10 except at index 27
(`values[i] = values[i-10]` iff `i ≠ 27` for `i ∈ [10, 30)`); the symbol fed
at 27 (g) is absent from the first 27 timesteps; the scores list is
initialised to thirty zeros; each loop iteration assigns exactly index `i`
and then recurses at `i + 1`, so the thirty assignments happen one per
timestep in increasing index order; and the run's scores list has length 30. -/
theorem driver_data_period :
    (∀ i, 10 ≤ i → i < 30 → (values[i]! = values[i - 10]! ↔ i ≠ 27)) ∧
    'g' ∉ values.take 27 ∧
    scores0 = List.replicate 30 0 ∧
    (∀ (l : Nat) (rest : List Nat) (i : Nat)
        (st : LabelTransformer × SequenceLearner) (scores : List Rat),
      driverLoop (l :: rest) i st scores =
        (driverStep st l).bind
          (fun st' => driverLoop rest (i + 1) st'
            (scores.set i st'.2.get_anomaly_score))) ∧
    runScores.length = 30 := by
  refine ⟨?_, by decide, by decide, ?_, ?_⟩
  · intro i h1 h2
    interval_cases i <;> decide
  · intro l rest i st scores
    rfl
  · rw [runScores_eq]
    rfl

/-- Witness for C10: period-10 holds at index 15, and the loop equation holds
at a first concrete iteration. -/
theorem driver_data_period_witness :
    (values[15]! = values[5]! ↔ (15 : Nat) ≠ 27) ∧
    driverLoop [0] 0 (lt0, sl_init) [] =
      (driverStep (lt0, sl_init) 0).bind
        (fun st' => driverLoop [] 1 st'
          (List.set [] 0 st'.2.get_anomaly_score)) :=
  ⟨driver_data_period.1 15 (by norm_num) (by norm_num),
   driver_data_period.2.2.2.1 0 [] 0 (lt0, sl_init) []⟩

end Blockhead
